import Mathlib

/-!
Verification of the Chart Agent repository's clinical data gateway and
frontend service layer.  Definitions are shallow embeddings of the
TypeScript source (frontend/src/services/api.ts, services/auth.ts,
App.tsx, components/PatientSummary.tsx, types.ts); components of the
gateway that the repository documents but whose implementation files are
not present (Gateway Facade, Credential Provider / Token Cache, Response
Normalizer) are modelled from the specification and marked as such in
their doc comments.
-/

namespace ChartAgent

/-! ## Browser localStorage model

The frontend keeps its auth state in `localStorage` under the keys
`auth_token` and `auth_user`.  We model storage as an association list
from keys to string values; `getItem` returns `none` where the browser
returns `null`. -/

/-- A snapshot of the browser's localStorage: key/value string pairs. -/
abbrev Storage := List (String × String)

/-- `localStorage.getItem k`: the first value stored under `k`, if any. -/
def getItem (σ : Storage) (k : String) : Option String :=
  (List.find? (fun p => p.1 == k) σ).map (fun p => p.2)

/-- `localStorage.removeItem k`: drops every entry under key `k`. -/
def removeItem (σ : Storage) (k : String) : Storage :=
  List.filter (fun p => p.1 != k) σ

/-! ## api.ts request interceptor

```ts
api.interceptors.request.use((config) => {
  const token = localStorage.getItem('auth_token');
  if (token) {
    config.headers.Authorization = `Bearer ${token}`;
  }
  return config;
});
```

`authApi` in services/auth.ts installs the identical interceptor.  The
JavaScript truthiness test `if (token)` rejects both `null` (key absent)
and the empty string. -/

/-- The `Authorization` header value the request interceptor attaches,
or `none` when it attaches nothing.  Faithful to the JS truthiness
check: an empty stored token attaches no header. -/
def requestAuthHeader (σ : Storage) : Option String :=
  match getItem σ "auth_token" with
  | some t => if t = "" then none else some ("Bearer " ++ t)
  | none => none

/-! ## api.ts response interceptor

```ts
api.interceptors.response.use(
  (response) => response,
  (error) => {
    if (error.response?.status === 401) {
      localStorage.removeItem('auth_token');
      localStorage.removeItem('auth_user');
      window.location.reload();
    }
    return Promise.reject(error);
  }
);
```
-/

/-- Effect of the response-error interceptor for a response with the
given HTTP status: the updated storage and whether the page was
reloaded.  The rejected promise is never retried, so no retry component
exists. -/
def onResponseError (status : Nat) (σ : Storage) : Storage × Bool :=
  if status = 401 then
    (removeItem (removeItem σ "auth_token") "auth_user", true)
  else
    (σ, false)

/-! ## api.ts addFhirSource

```ts
const addFhirSource = (url: string, fhirSource?: FHIRSource): string => {
  if (fhirSource) {
    const separator = url.includes('?') ? '&' : '?';
    return `${url}${separator}fhir_source=${fhirSource}`;
  }
  return url;
};
```

`FHIRSource` is a string type; an omitted argument is `none`. -/

/-- `addFhirSource`: appends `fhir_source=<source>` to `url`, with `&`
when the url already has a query string and `?` otherwise; an absent
source leaves the url untouched. -/
def addFhirSource (url : String) (fhirSource : Option String) : String :=
  match fhirSource with
  | some s => url ++ (if url.contains '?' then "&" else "?") ++ "fhir_source=" ++ s
  | none => url

/-! ## App.tsx source-selection state

```ts
const defaultSource = (user?.allowed_data_sources?.[0] || 'healthlake') as FHIRSource;
const [fhirSource, setFhirSource] = useState<FHIRSource>(defaultSource);
...
const handleFhirSourceChange = (source: FHIRSource) => {
  if (user?.allowed_data_sources?.includes(source)) {
    setFhirSource(source);
    setSelectedPatientId(null);
    setSelectedPatientName('');
  }
};
```
-/

/-- The slice of `AuthUser` (services/auth.ts) the source-selection
logic reads.  `allowed_data_sources` is `string[]` in the current type,
but App.tsx accesses it with optional chaining, so an absent field is
modelled as `none`. -/
structure AuthUser where
  allowed_data_sources : Option (List String)
deriving DecidableEq

/-- The AppContent state touched by a source change. -/
structure AppState where
  fhirSource : String
  selectedPatientId : Option String
  selectedPatientName : String
deriving DecidableEq

/-- `user?.allowed_data_sources?.[0] || 'healthlake'`: the initial
value of `fhirSource`.  JS `||` falls through to the default when the
chained lookup is `undefined` (no user, absent field, empty list) or
when the first element is the falsy empty string. -/
def defaultSource (user : Option AuthUser) : String :=
  match user.bind (fun u => u.allowed_data_sources) with
  | some (x :: _) => if x = "" then "healthlake" else x
  | some [] => "healthlake"
  | none => "healthlake"

/-- `handleFhirSourceChange`: switches the active source and clears the
patient selection only when `source` is contained in the user's
`allowed_data_sources`; otherwise the state is untouched.  The
`allowed` argument is `user?.allowed_data_sources` (absent user or
field gives `none`). -/
def handleFhirSourceChange (allowed : Option (List String)) (st : AppState)
    (source : String) : AppState :=
  match allowed with
  | some l =>
      if l.contains source then
        { fhirSource := source, selectedPatientId := none, selectedPatientName := "" }
      else st
  | none => st

/-! ## types.ts clinical data shapes (frontend/src/types.ts) -/

/-- `PatientBasic` from types.ts. -/
structure PatientBasic where
  id : String
  name : String
  mrn : Option String
  dob : Option String
  gender : Option String
  appointment_time : Option String
deriving DecidableEq

/-- `Condition` from types.ts. -/
structure Condition where
  code : String
  display : String
  clinical_status : Option String
  onset_date : Option String
deriving DecidableEq

/-- `Medication` from types.ts. -/
structure Medication where
  code : String
  display : String
  status : Option String
  dosage : Option String
deriving DecidableEq

/-- `Observation` from types.ts: the `abnormal` field is an optional
boolean (`abnormal?: boolean`), so it may be absent rather than
`false`. -/
structure Observation where
  code : String
  display : String
  value : Option String
  unit : Option String
  date : Option String
  abnormal : Option Bool
deriving DecidableEq

/-- `Allergy` from types.ts. -/
structure Allergy where
  code : String
  display : String
  criticality : Option String
  reaction : Option String
deriving DecidableEq

/-- `Encounter` from types.ts. -/
structure Encounter where
  id : String
  type : Option String
  date : Option String
  reason : Option String
  provider : Option String
deriving DecidableEq

/-- `PatientData` from types.ts: the per-patient aggregation shape.  It
carries the five clinical categories and no per-category failure
markers. -/
structure PatientData where
  patient : PatientBasic
  conditions : List Condition
  medications : List Medication
  observations : List Observation
  allergies : List Allergy
  encounters : List Encounter
deriving DecidableEq

/-! ## PatientSummary.tsx rendering

The component renders, in order: a spinner while `loadingData`; a
single `<Alert severity="error">` when `error` is set; a prompt when no
`patientData` is loaded; otherwise the full chart built from
`patientData`.  Lab rows use
`color={obs.abnormal ? 'error' : 'inherit'}` and
`{obs.abnormal && ' • ABNORMAL'}`. -/

/-- What PatientSummary renders for a given component state. -/
inductive RenderOutcome where
  | spinner
  | errorAlert (msg : String)
  | selectPrompt
  | chart (data : PatientData)
deriving DecidableEq

/-- The early-return cascade of PatientSummary.tsx. -/
def renderPatientSummary (loadingData : Bool) (error : Option String)
    (patientData : Option PatientData) : RenderOutcome :=
  if loadingData then .spinner
  else
    match error with
    | some e => .errorAlert e
    | none =>
        match patientData with
        | some d => .chart d
        | none => .selectPrompt

/-- Whether a lab row is displayed as abnormal: the JS truthiness test
`obs.abnormal ? ... : ...` treats an absent flag (and `false`) as not
abnormal. -/
def displayedAsAbnormal (obs : Observation) : Bool :=
  obs.abnormal.getD false

/-! ## Gateway model (components absent from the source tree)

The repository's documentation describes a multi-source clinical data
gateway (Credential Provider, Source Adapter, Response Normalizer,
Gateway Facade, Token Cache).  Their implementation files are not in
the source tree, so the definitions below are modelled from the
specification text, as their doc comments state. -/

/-- Modelled from the spec: a single recoverable `ParseError` recorded
when one raw entry is malformed (§4.3, §7); the only malformation the
claims exercise is a missing required identity field. -/
inductive ParseError where
  | missingId
deriving DecidableEq

/-- Modelled from the spec: a raw resource payload as fetched from a
backend.  The required identity field `id` may be absent; the remaining
source-specific fields are abstracted as a key/value list, since the
per-source field maps are not in the source tree. -/
structure Raw where
  id : Option String
  attrs : List (String × String)
deriving DecidableEq

/-- Modelled from the spec: a canonical entity (§3); `id` is required,
the other extracted fields are kept as the key/value list the field
mapping produced. -/
structure Entity where
  id : String
  attrs : List (String × String)
deriving DecidableEq

/-- Modelled from the spec: `normalize(sourceId, resourceType,
rawPayload) -> canonical entity | Fails(ParseError)` (§4.3).  A payload
missing the required `id` fails with a recorded `ParseError`; otherwise
the canonical entity is built from the extracted fields.  The function
is pure: it reads no mutable state. -/
def normalize (sourceId resourceType : String) (raw : Raw) :
    Except ParseError Entity :=
  match raw.id with
  | some i => .ok { id := i, attrs := raw.attrs }
  | none => .error .missingId

/-- Modelled from the spec: normalization of one fetched page, entry by
entry — successfully normalized entities are collected together with
the recorded per-entry `ParseError`s; a malformed entry is skipped, it
never aborts the rest of the page (§4.3). -/
def normalizePage (sourceId resourceType : String) :
    List Raw → List Entity × List ParseError
  | [] => ([], [])
  | r :: rs =>
      match normalize sourceId resourceType r, normalizePage sourceId resourceType rs with
      | .ok e, (es, ps) => (e :: es, ps)
      | .error p, (es, ps) => (es, p :: ps)

/-- Modelled from the spec: observation abnormality (§4.3).  With a
reference range `[low, high]` present, the flag is true iff the numeric
value falls outside the range; with no range (or no numeric value) the
flag is false, never inferred from magnitude alone. -/
def abnormalFlag (value : Option ℚ) (range : Option (ℚ × ℚ)) : Bool :=
  match range, value with
  | some (lo, hi), some v => decide (v < lo ∨ hi < v)
  | _, _ => false

/-- Modelled from the spec: the caller identity supplied by the
external permission collaborator, carrying its permitted source set
(§6). -/
structure Caller where
  allowedSources : List String
deriving DecidableEq

/-- Modelled from the spec: the facade-level failure (§4.4, §7). -/
inductive GatewayError where
  | permissionDenied
deriving DecidableEq

/-- Modelled from the spec: the Gateway Facade `query` (§4.4).  It
first checks that `sourceId` is in the caller's allowed set and fails
with `PermissionDenied` before any adapter is consulted; otherwise it
delegates to the adapter (`fetch`) and normalizes each entry.  The
second component counts the adapter fetches issued, so `0` witnesses
that no request reached an adapter. -/
def query (fetch : String → String → List Raw) (caller : Caller)
    (sourceId resourceType : String) :
    Except GatewayError (List Entity × List ParseError) × Nat :=
  if caller.allowedSources.contains sourceId then
    (.ok (normalizePage sourceId resourceType (fetch sourceId resourceType)), 1)
  else
    (.error .permissionDenied, 0)

/-! ## Token Cache renewal protocol (modelled from the spec)

The Credential Provider / Token Cache implementation is not in the
source tree.  The spec (§4.1, §5, invariants in §3) prescribes a
single-writer-per-key renewal: the check-then-act on the cache is
atomic, a renewal in progress is visible to concurrent callers as
"pending" and they await its outcome instead of issuing redundant
exchanges.  We model one source key under `N` concurrent callers as an
interleaved transition system: each caller atomically inspects the
cache and either starts the (unique) renewal exchange, joins the
waiters, or reads the settled outcome.  The parameter `res` is the
outcome of the single token-exchange HTTP call — a credential on
success or the shared failure. -/

/-- One token result: a bearer credential, or the renewal failure that
every waiter observes alike. -/
inductive TokenResult where
  | token (value : String)
  | failure (message : String)
deriving DecidableEq

/-- Cache slot for one source key: empty, renewal in flight, or
settled with the exchange's outcome. -/
inductive CacheSt where
  | absent
  | pending
  | settled (r : TokenResult)
deriving DecidableEq

/-- Global state of `N` concurrent `acquire` calls on one source key:
how many callers have not yet inspected the cache (`nStart`), how many
are performing the renewal (`nRenew`), how many await it (`nWait`), the
results already delivered, the cache slot, and the count of renewal
HTTP exchanges issued so far. -/
structure AcqSt where
  nStart : Nat
  nRenew : Nat
  nWait : Nat
  results : List TokenResult
  cache : CacheSt
  exchanges : Nat
deriving DecidableEq

/-- Initial state: `n` concurrent callers, no cached credential, no
exchange issued. -/
def acqInit (n : Nat) : AcqSt :=
  { nStart := n, nRenew := 0, nWait := 0, results := [], cache := .absent, exchanges := 0 }

/-- One atomic step of the renewal protocol, as prescribed by the spec:
the cache check-then-act is atomic, so a caller that finds the slot
absent installs the pending marker and issues the (counted) exchange;
callers finding it pending wait; the renewal settles the slot with the
exchange outcome `res`; callers read a settled slot's value. -/
inductive AcqStep (res : TokenResult) : AcqSt → AcqSt → Prop where
  | beginRenew (s : AcqSt) (h1 : 0 < s.nStart) (h2 : s.cache = CacheSt.absent) :
      AcqStep res s { s with nStart := s.nStart - 1, nRenew := s.nRenew + 1,
                             cache := CacheSt.pending, exchanges := s.exchanges + 1 }
  | joinWait (s : AcqSt) (h1 : 0 < s.nStart) (h2 : s.cache = CacheSt.pending) :
      AcqStep res s { s with nStart := s.nStart - 1, nWait := s.nWait + 1 }
  | hitCache (s : AcqSt) (r : TokenResult) (h1 : 0 < s.nStart)
      (h2 : s.cache = CacheSt.settled r) :
      AcqStep res s { s with nStart := s.nStart - 1, results := r :: s.results }
  | completeRenew (s : AcqSt) (h1 : 0 < s.nRenew) :
      AcqStep res s { s with nRenew := s.nRenew - 1, cache := CacheSt.settled res,
                             results := res :: s.results }
  | collectWait (s : AcqSt) (r : TokenResult) (h1 : 0 < s.nWait)
      (h2 : s.cache = CacheSt.settled r) :
      AcqStep res s { s with nWait := s.nWait - 1, results := r :: s.results }

/-- Invariant of the renewal protocol: caller conservation, at most one
exchange (none before the cache leaves `absent`, exactly one renewal in
flight while `pending`), and every delivered result is the single
exchange's outcome. -/
def AcqInv (res : TokenResult) (n : Nat) (s : AcqSt) : Prop :=
  s.nStart + s.nRenew + s.nWait + s.results.length = n ∧
  (s.cache = CacheSt.absent → s.exchanges = 0 ∧ s.nRenew = 0 ∧ s.results = []) ∧
  (s.cache = CacheSt.pending → s.exchanges = 1 ∧ s.nRenew = 1) ∧
  (∀ r, s.cache = CacheSt.settled r → s.exchanges = 1 ∧ s.nRenew = 0 ∧ r = res) ∧
  (∀ r ∈ s.results, r = res)

lemma acqInv_init (res : TokenResult) (n : Nat) : AcqInv res n (acqInit n) := by
  refine ⟨by simp [acqInit], by simp [acqInit], by simp [acqInit], ?_, by simp [acqInit]⟩
  intro r hr
  simp [acqInit] at hr

lemma acqInv_step {res : TokenResult} {n : Nat} {s t : AcqSt}
    (hst : AcqStep res s t) (hinv : AcqInv res n s) : AcqInv res n t := by
  obtain ⟨hsum, habs, hpend, hsettled, hres⟩ := hinv
  cases hst with
  | beginRenew h1 h2 =>
      obtain ⟨he, hr0, hres0⟩ := habs h2
      refine ⟨?_, ?_, ?_, ?_, ?_⟩
      · show s.nStart - 1 + (s.nRenew + 1) + s.nWait + s.results.length = n
        omega
      · intro hc; exact CacheSt.noConfusion hc
      · intro _
        exact ⟨by show s.exchanges + 1 = 1; omega, by show s.nRenew + 1 = 1; omega⟩
      · intro r hr; exact CacheSt.noConfusion hr
      · exact hres
  | joinWait h1 h2 =>
      refine ⟨?_, ?_, ?_, ?_, ?_⟩
      · show s.nStart - 1 + s.nRenew + (s.nWait + 1) + s.results.length = n
        omega
      · intro hc
        rw [h2] at hc; exact CacheSt.noConfusion hc
      · intro hc; exact hpend hc
      · intro r hr
        rw [h2] at hr; exact CacheSt.noConfusion hr
      · exact hres
  | hitCache r h1 h2 =>
      obtain ⟨he, hr0, hrres⟩ := hsettled r h2
      refine ⟨?_, ?_, ?_, ?_, ?_⟩
      · show s.nStart - 1 + s.nRenew + s.nWait + (r :: s.results).length = n
        rw [List.length_cons]; omega
      · intro hc
        rw [h2] at hc; exact CacheSt.noConfusion hc
      · intro hc
        rw [h2] at hc; exact CacheSt.noConfusion hc
      · intro r' hr'
        rw [h2] at hr'
        injection hr' with hrr
        exact ⟨he, hr0, by rw [← hrr]; exact hrres⟩
      · intro r' hr'
        rcases List.mem_cons.mp hr' with hr' | hr'
        · rw [hr']; exact hrres
        · exact hres r' hr'
  | completeRenew h1 =>
      have hc : s.cache = CacheSt.pending := by
        cases hcs : s.cache with
        | absent => obtain ⟨-, hz, -⟩ := habs hcs; omega
        | pending => rfl
        | settled r => obtain ⟨-, hz, -⟩ := hsettled r hcs; omega
      obtain ⟨he, hr1⟩ := hpend hc
      refine ⟨?_, ?_, ?_, ?_, ?_⟩
      · show s.nStart + (s.nRenew - 1) + s.nWait + (res :: s.results).length = n
        rw [List.length_cons]; omega
      · intro hcc; exact CacheSt.noConfusion hcc
      · intro hcc; exact CacheSt.noConfusion hcc
      · intro r hr
        injection hr with hrr
        exact ⟨he, by show s.nRenew - 1 = 0; omega, hrr.symm⟩
      · intro r' hr'
        rcases List.mem_cons.mp hr' with hr' | hr'
        · exact hr'
        · exact hres r' hr'
  | collectWait r h1 h2 =>
      obtain ⟨he, hr0, hrres⟩ := hsettled r h2
      refine ⟨?_, ?_, ?_, ?_, ?_⟩
      · show s.nStart + s.nRenew + (s.nWait - 1) + (r :: s.results).length = n
        rw [List.length_cons]; omega
      · intro hc
        rw [h2] at hc; exact CacheSt.noConfusion hc
      · intro hc
        rw [h2] at hc; exact CacheSt.noConfusion hc
      · intro r' hr'
        rw [h2] at hr'
        injection hr' with hrr
        exact ⟨he, hr0, by rw [← hrr]; exact hrres⟩
      · intro r' hr'
        rcases List.mem_cons.mp hr' with hr' | hr'
        · rw [hr']; exact hrres
        · exact hres r' hr'

lemma acqInv_reachable {res : TokenResult} {n : Nat} {s : AcqSt}
    (h : Relation.ReflTransGen (AcqStep res) (acqInit n) s) : AcqInv res n s := by
  induction h with
  | refl => exact acqInv_init res n
  | tail _ hstep ih => exact acqInv_step hstep ih

/-! ## Sample data used by counterexamples and witnesses -/

/-- A patient aggregation in which several categories were retrieved
successfully. -/
def samplePatientData : PatientData :=
  { patient := ⟨"p1", "Pat One", none, none, none, none⟩,
    conditions := [⟨"38341003", "Hypertension", some "active", none⟩],
    medications := [⟨"314076", "Lisinopril", some "active", some "10 mg daily"⟩],
    observations := [], allergies := [], encounters := [] }

/-- An observation payload carrying value 450 mg/dL and no reference
range, hence no abnormal flag. -/
def obs450 : Observation :=
  ⟨"2345-7", "Glucose", some "450", some "mg/dL", none, none⟩

/-- A well-formed raw payload: the required `id` is present. -/
def rawGood : Raw := ⟨some "p1", [("name", "Good Patient")]⟩

/-- A malformed raw payload: the required `id` is absent. -/
def rawBad : Raw := ⟨none, [("name", "No Id")]⟩

/-! # Theorems for the claims -/

/-- C9: for every url and defined fhirSource, `addFhirSource` returns
the original url followed by exactly one `fhir_source=<source>`
parameter, separated by `&` iff the url already contains `?` and by `?`
otherwise, so the original url is an initial segment of the result;
with the source absent the url is returned unchanged. -/
theorem addFhirSource_appends_one_param (url s : String) :
    addFhirSource url (some s)
      = url ++ (if url.contains '?' then "&" else "?") ++ "fhir_source=" ++ s
    ∧ (∃ rest, addFhirSource url (some s) = url ++ rest)
    ∧ addFhirSource url none = url := by
  refine ⟨rfl, ⟨(if url.contains '?' then "&" else "?") ++ ("fhir_source=" ++ s), ?_⟩, rfl⟩
  show url ++ (if url.contains '?' then "&" else "?") ++ "fhir_source=" ++ s = _
  rw [String.append_assoc, String.append_assoc]

/-- C7 counterexample: with the empty string stored under `auth_token`
a token is present in storage, yet the JS truthiness check attaches no
`Authorization` header, so "attached iff a token is present" fails as
stated. -/
theorem auth_header_empty_token_counterexample :
    getItem [("auth_token", "")] "auth_token" = some ""
    ∧ requestAuthHeader [("auth_token", "")] = none := by
  exact ⟨rfl, rfl⟩

/-- C7 amended: the request interceptor attaches
`Authorization: Bearer <token>` iff a non-empty token is stored under
`auth_token`; with the key absent, or holding the empty string, no
header is attached. -/
theorem auth_header_iff_nonempty_token (σ : Storage) (t : String) :
    (getItem σ "auth_token" = some t → t ≠ "" →
      requestAuthHeader σ = some ("Bearer " ++ t))
    ∧ (getItem σ "auth_token" = none → requestAuthHeader σ = none)
    ∧ (getItem σ "auth_token" = some "" → requestAuthHeader σ = none) := by
  refine ⟨?_, ?_, ?_⟩
  · intro h hne
    simp [requestAuthHeader, h, hne]
  · intro h
    simp [requestAuthHeader, h]
  · intro h
    simp [requestAuthHeader, h]

/-- C7 witness: concrete storage states exercising both directions. -/
theorem auth_header_iff_nonempty_token_witness :
    requestAuthHeader [("auth_token", "tok")] = some ("Bearer " ++ "tok")
    ∧ requestAuthHeader [] = none :=
  ⟨(auth_header_iff_nonempty_token [("auth_token", "tok")] "tok").1 rfl (by decide),
   (auth_header_iff_nonempty_token [] "tok").2.1 rfl⟩

/-- C4 counterexample: a 403 response leaves the stored token in place
and triggers no refresh, so "on 401 or 403 the cached token is
invalidated and the request retried once" fails at status 403. -/
theorem response_403_keeps_token_counterexample :
    getItem [("auth_token", "tok"), ("auth_user", "u")] "auth_token" = some "tok"
    ∧ onResponseError 403 [("auth_token", "tok"), ("auth_user", "u")]
        = ([("auth_token", "tok"), ("auth_user", "u")], false)
    ∧ getItem (onResponseError 403 [("auth_token", "tok"), ("auth_user", "u")]).1
        "auth_token" = some "tok" := by
  exact ⟨rfl, rfl, rfl⟩

/-- C4 amended: on a 401 the response interceptor removes `auth_token`
and `auth_user` from localStorage and reloads the page, never retrying
the failed request; any other status (403 included) passes through with
storage untouched and no reload. -/
theorem response_interceptor_behavior (σ : Storage) (status : Nat) :
    onResponseError 401 σ
      = (removeItem (removeItem σ "auth_token") "auth_user", true)
    ∧ (status ≠ 401 → onResponseError status σ = (σ, false)) := by
  refine ⟨rfl, fun h => ?_⟩
  simp [onResponseError, h]

/-- C4 witness: the interceptor at statuses 401 and 403 on a concrete
storage state. -/
theorem response_interceptor_behavior_witness :
    onResponseError 401 [("auth_token", "tok"), ("auth_user", "u")] = ([], true)
    ∧ onResponseError 403 [("auth_token", "tok")] = ([("auth_token", "tok")], false) :=
  ⟨((response_interceptor_behavior [("auth_token", "tok"), ("auth_user", "u")] 403).1).trans
     (by decide),
   (response_interceptor_behavior [("auth_token", "tok")] 403).2 (by decide)⟩

/-- C3 counterexample: with an error set and successfully retrieved
categories loaded, PatientSummary renders only the single error Alert —
the successful categories are not shown, so the view fails entirely
instead of showing partial results. -/
theorem patientSummary_partial_failure_counterexample :
    renderPatientSummary false (some "Failed to load patient data")
        (some samplePatientData)
      = RenderOutcome.errorAlert "Failed to load patient data"
    ∧ samplePatientData.conditions ≠ []
    ∧ renderPatientSummary false (some "Failed to load patient data")
        (some samplePatientData) ≠ RenderOutcome.chart samplePatientData := by
  refine ⟨rfl, by decide, by decide⟩

/-- C3 amended: whenever any error is set (and data is not loading),
PatientSummary renders a single error Alert and never the chart of
categories, and the `PatientData` shape carries no per-category failure
markers, so no partial-failure display exists. -/
theorem patientSummary_error_renders_single_alert (e : String) (pd : Option PatientData) :
    renderPatientSummary false (some e) pd = RenderOutcome.errorAlert e
    ∧ ∀ d : PatientData,
        renderPatientSummary false (some e) pd ≠ RenderOutcome.chart d := by
  exact ⟨rfl, fun d h => RenderOutcome.noConfusion h⟩

/-- C5: with no reference range the derived abnormal flag is false for
every value; with a range present the flag is true iff the value falls
outside `[low, high]`; and the UI treats an absent `abnormal` field as
not abnormal. -/
theorem observation_abnormal_flag :
    (∀ v : Option ℚ, abnormalFlag v none = false)
    ∧ (∀ lo hi v : ℚ,
        abnormalFlag (some v) (some (lo, hi)) = decide (v < lo ∨ hi < v))
    ∧ (∀ obs : Observation, obs.abnormal = none → displayedAsAbnormal obs = false) := by
  refine ⟨?_, ?_, ?_⟩
  · intro v
    cases v <;> rfl
  · intro lo hi v
    rfl
  · intro obs h
    simp [displayedAsAbnormal, h]

/-- C5 witness: value 450 mg/dL with no range yields no abnormal flag,
and the UI shows that observation as not abnormal. -/
theorem observation_abnormal_flag_witness :
    abnormalFlag (some 450) none = false ∧ displayedAsAbnormal obs450 = false :=
  ⟨observation_abnormal_flag.1 (some 450),
   observation_abnormal_flag.2.2 obs450 rfl⟩

/-- C1: a query for a source outside the caller's allowed set fails
immediately with `PermissionDenied` and issues zero adapter fetches,
and `handleFhirSourceChange` for a source outside
`allowed_data_sources` leaves the UI state untouched (the switch is a
no-op, so no request for that source follows). -/
theorem gateway_permission_denied_no_request (fetch : String → String → List Raw)
    (caller : Caller) (sourceId resourceType : String) (st : AppState)
    (h : sourceId ∉ caller.allowedSources) :
    query fetch caller sourceId resourceType
      = (Except.error GatewayError.permissionDenied, 0)
    ∧ handleFhirSourceChange (some caller.allowedSources) st sourceId = st := by
  exact ⟨by simp [query, h], by simp [handleFhirSourceChange, h]⟩

/-- C1 witness: a caller allowed only `healthlake` querying `epic` is
denied with zero adapter fetches, and the same switch in the UI is a
no-op. -/
theorem gateway_permission_denied_no_request_witness :
    query (fun _ _ => []) ⟨["healthlake"]⟩ "epic" "Patient"
      = (Except.error GatewayError.permissionDenied, 0)
    ∧ handleFhirSourceChange (some ["healthlake"])
        ⟨"healthlake", none, ""⟩ "epic" = ⟨"healthlake", none, ""⟩ :=
  gateway_permission_denied_no_request (fun _ _ => []) ⟨["healthlake"]⟩ "epic"
    "Patient" ⟨"healthlake", none, ""⟩ (by decide)

/-- C6: normalizing a fetched page containing an entry with no `id`
yields zero entities and exactly one recorded `ParseError` for that
entry, while every other entry of the page is normalized exactly as it
would be without it; the function is total, so no exception is
raised. -/
theorem normalize_skips_missing_id (sourceId resourceType : String)
    (pre post : List Raw) (bad : Raw) (h : bad.id = none) :
    normalize sourceId resourceType bad = Except.error ParseError.missingId
    ∧ normalizePage sourceId resourceType (pre ++ bad :: post)
      = ((normalizePage sourceId resourceType pre).1
           ++ (normalizePage sourceId resourceType post).1,
         (normalizePage sourceId resourceType pre).2
           ++ ParseError.missingId :: (normalizePage sourceId resourceType post).2) := by
  have hbad : normalize sourceId resourceType bad = Except.error ParseError.missingId := by
    simp [normalize, h]
  refine ⟨hbad, ?_⟩
  induction pre with
  | nil =>
      cases hnp : normalizePage sourceId resourceType post with
      | mk es ps =>
          simp [normalizePage, hbad, hnp]
  | cons r rs ih =>
      cases hnr : normalize sourceId resourceType r with
      | ok e =>
          cases hrs : normalizePage sourceId resourceType rs with
          | mk es1 ps1 =>
              rw [hrs] at ih
              simp [normalizePage, hnr, hrs, List.cons_append, ih]
      | error p =>
          cases hrs : normalizePage sourceId resourceType rs with
          | mk es1 ps1 =>
              rw [hrs] at ih
              simp [normalizePage, hnr, hrs, List.cons_append, ih]

/-- C6 witness: a page of one good, one id-less, one good payload
yields two entities and one `ParseError`. -/
theorem normalize_skips_missing_id_witness :
    (normalizePage "healthlake" "Patient" [rawGood] = ([⟨"p1", [("name", "Good Patient")]⟩], [])
      ∧ rawBad.id = none)
    ∧ normalize "healthlake" "Patient" rawBad = Except.error ParseError.missingId
    ∧ normalizePage "healthlake" "Patient" ([rawGood] ++ rawBad :: [rawGood])
      = ((normalizePage "healthlake" "Patient" [rawGood]).1
           ++ (normalizePage "healthlake" "Patient" [rawGood]).1,
         (normalizePage "healthlake" "Patient" [rawGood]).2
           ++ ParseError.missingId :: (normalizePage "healthlake" "Patient" [rawGood]).2) :=
  ⟨⟨rfl, rfl⟩,
   (normalize_skips_missing_id "healthlake" "Patient" [rawGood] [rawGood] rawBad rfl).1,
   (normalize_skips_missing_id "healthlake" "Patient" [rawGood] [rawGood] rawBad rfl).2⟩

/-- C8: `normalize` is deterministic and idempotent across repeated
calls — it is a pure function of `(sourceId, resourceType, rawPayload)`
with no mutable state, so normalizing the same payload any number of
times yields the same result each time. -/
theorem normalize_deterministic (sourceId resourceType : String) (raw : Raw) (n : Nat) :
    (List.replicate n raw).map (normalize sourceId resourceType)
      = List.replicate n (normalize sourceId resourceType raw) := by
  simp [List.map_replicate]

/-- C10 counterexample: for a user whose `allowed_data_sources` is the
non-empty list `[""]`, the initial `fhirSource` is `healthlake`, not
the list's first element, because the JS `||` default also fires on the
falsy empty string — so "non-empty list implies initialized to its
first element" fails as stated. -/
theorem defaultSource_nonempty_first_counterexample :
    (AuthUser.mk (some [""])).allowed_data_sources = some [""]
    ∧ ([""] : List String) ≠ []
    ∧ ([""] : List String).head? = some ""
    ∧ defaultSource (some (AuthUser.mk (some [""]))) = "healthlake"
    ∧ "healthlake" ≠ "" := by
  exact ⟨rfl, by decide, rfl, rfl, by decide⟩

/-- C10 amended: `fhirSource` is initialized to the first element of
`allowed_data_sources` when that element is a non-empty string, and to
`healthlake` when the list is absent or empty, when no user is present,
or when the first element is the empty string (even though `healthlake`
need not be in the allowed set); every `handleFhirSourceChange` call
preserves membership of `fhirSource` in the allowed list, and with no
allowed list the state never changes. -/
theorem source_selection_invariant (u : AuthUser) (x : String) (l : List String)
    (st : AppState) (s : String) (l' : List String) :
    (u.allowed_data_sources = some (x :: l) → x ≠ "" → defaultSource (some u) = x)
    ∧ (u.allowed_data_sources = some (x :: l) → x = "" →
        defaultSource (some u) = "healthlake")
    ∧ (u.allowed_data_sources = some [] → defaultSource (some u) = "healthlake")
    ∧ (u.allowed_data_sources = none → defaultSource (some u) = "healthlake")
    ∧ defaultSource none = "healthlake"
    ∧ (st.fhirSource ∈ l' →
        (handleFhirSourceChange (some l') st s).fhirSource ∈ l')
    ∧ handleFhirSourceChange none st s = st := by
  refine ⟨?_, ?_, ?_, ?_, rfl, ?_, rfl⟩
  · intro h hne
    simp [defaultSource, h, hne]
  · intro h he
    simp [defaultSource, h, he]
  · intro h
    simp [defaultSource, h]
  · intro h
    simp [defaultSource, h]
  · intro hmem
    by_cases hc : s ∈ l'
    · simp [handleFhirSourceChange, hc]
    · simpa [handleFhirSourceChange, hc] using hmem

/-- C10 witness: a user allowed `[epic, cerner]` starts on `epic`, and
switching to `cerner` keeps the active source inside the allowed
list. -/
theorem source_selection_invariant_witness :
    defaultSource (some (AuthUser.mk (some ["epic", "cerner"]))) = "epic"
    ∧ (handleFhirSourceChange (some ["epic", "cerner"])
         ⟨"epic", none, ""⟩ "cerner").fhirSource ∈ ["epic", "cerner"] :=
  ⟨(source_selection_invariant (AuthUser.mk (some ["epic", "cerner"])) "epic"
      ["cerner"] ⟨"epic", none, ""⟩ "cerner" ["epic", "cerner"]).1 rfl (by decide),
   (source_selection_invariant (AuthUser.mk (some ["epic", "cerner"])) "epic"
      ["cerner"] ⟨"epic", none, ""⟩ "cerner"
      ["epic", "cerner"]).2.2.2.2.2.1 (by decide)⟩

/-- C2: under the spec's atomic check-then-act token cache, any
interleaving of `n ≥ 1` concurrent `acquire` calls for one absent or
expired source credential that runs until every caller has finished
performs exactly one renewal HTTP exchange, and every caller receives
the single exchange's outcome — the same credential, or the same
failure. -/
theorem tokenCache_single_renewal_exchange (res : TokenResult) (n : Nat) (s : AcqSt)
    (hreach : Relation.ReflTransGen (AcqStep res) (acqInit n) s) (hn : 1 ≤ n)
    (hdone : s.nStart = 0 ∧ s.nRenew = 0 ∧ s.nWait = 0) :
    s.exchanges = 1 ∧ s.results.length = n ∧ ∀ r ∈ s.results, r = res := by
  obtain ⟨h0, h1, h2⟩ := hdone
  obtain ⟨hsum, habs, hpend, hsettled, hres⟩ := acqInv_reachable hreach
  have hlen : s.results.length = n := by omega
  have hcache : s.cache ≠ CacheSt.absent := by
    intro hc
    obtain ⟨-, -, hres0⟩ := habs hc
    rw [hres0] at hlen
    simp at hlen
    omega
  have hex : s.exchanges = 1 := by
    cases hcs : s.cache with
    | absent => exact absurd hcs hcache
    | pending => exact (hpend hcs).1
    | settled r => exact (hsettled r hcs).1
  exact ⟨hex, hlen, hres⟩

/-- Intermediate states of a two-caller schedule: the first caller
begins the renewal, the second joins the waiters, the renewal settles,
the waiter collects. -/
def acqSt1 : AcqSt := ⟨1, 1, 0, [], .pending, 1⟩

def acqSt2 : AcqSt := ⟨0, 1, 1, [], .pending, 1⟩

def acqSt3 : AcqSt :=
  ⟨0, 0, 1, [TokenResult.token "tok"], .settled (.token "tok"), 1⟩

def acqFinalTwo : AcqSt :=
  ⟨0, 0, 0, [TokenResult.token "tok", TokenResult.token "tok"],
   .settled (.token "tok"), 1⟩

lemma acqTraceTwo :
    Relation.ReflTransGen (AcqStep (TokenResult.token "tok")) (acqInit 2) acqFinalTwo := by
  have h1 : AcqStep (TokenResult.token "tok") (acqInit 2) acqSt1 :=
    AcqStep.beginRenew (acqInit 2) (by decide) rfl
  have h2 : AcqStep (TokenResult.token "tok") acqSt1 acqSt2 :=
    AcqStep.joinWait acqSt1 (by decide) rfl
  have h3 : AcqStep (TokenResult.token "tok") acqSt2 acqSt3 :=
    AcqStep.completeRenew acqSt2 (by decide)
  have h4 : AcqStep (TokenResult.token "tok") acqSt3 acqFinalTwo :=
    AcqStep.collectWait acqSt3 (TokenResult.token "tok") (by decide) rfl
  exact .head h1 (.head h2 (.head h3 (.head h4 .refl)))

/-- C2 witness: the two-caller schedule — two concurrent fetches
against the same bearer-token source with no cached token — ends with
exactly one token exchange and both callers holding the same
credential. -/
theorem tokenCache_single_renewal_exchange_witness :
    acqFinalTwo.exchanges = 1
    ∧ acqFinalTwo.results.length = 2
    ∧ acqFinalTwo.results = [TokenResult.token "tok", TokenResult.token "tok"] :=
  ⟨(tokenCache_single_renewal_exchange (TokenResult.token "tok") 2 acqFinalTwo
      acqTraceTwo (by decide) ⟨rfl, rfl, rfl⟩).1,
   (tokenCache_single_renewal_exchange (TokenResult.token "tok") 2 acqFinalTwo
      acqTraceTwo (by decide) ⟨rfl, rfl, rfl⟩).2.1,
   rfl⟩

end ChartAgent
